import Mathlib

/-!
Verification of the email-sync-system backend against its design
specification.

The development shallowly embeds the TypeScript sources:

* src/backend/src/types/index.ts            — Email record, EmailCategory enum
* src/backend/src/services/categorization.service.ts — CategorizationService
* src/backend/src/services/rag.service.ts   — RAGService (similarity, retrieval,
  reply generation)
* src/backend/src/services/imap.service.ts  — IMAPService lifecycle (as a step
  relation on an explicit connector state)
* src/email-sync-backend/src/server.ts      — EmailSyncServer.handleNewEmail
  together with NotificationService.notifyInterestedEmail (pipeline coordinator)
* the EmailController.updateCategory handler and
  ElasticsearchService.updateEmailCategory (category-correction endpoint)

Strings are modelled as Lean String values; JavaScript lower-casing is modelled
per character with Char.toLower (ASCII case mapping, which agrees with
String.prototype.toLowerCase on all texts appearing in the rule tables and in
the concrete messages used below).  JavaScript floating-point ratios are exact
on the small integer operands involved, so the single float comparison in the
code (capsPercentage > 0.5) is embedded as the equivalent exact integer
cross-multiplication; for an empty subject the JS ratio is NaN and the
comparison is false, matching the embedded comparison, which is also false.
-/

set_option maxRecDepth 4000

/-! ## String primitives -/

/-- ASCII-wise lower-casing of a string, modelling text.toLowerCase() on the
ASCII texts handled by the rule engine. -/
def lowerStr (s : String) : String := ⟨s.data.map Char.toLower⟩

/-- Bool-valued test that the first list is a prefix of the second. -/
def startsWith : List Char → List Char → Bool
  | [], _ => true
  | _ :: _, [] => false
  | p :: ps, c :: cs => (p == c) && startsWith ps cs

/-- Bool-valued contiguous-substring test on character lists. -/
def containsSub (pat : List Char) : List Char → Bool
  | [] => pat.isEmpty
  | c :: rest => startsWith pat (c :: rest) || containsSub pat rest

/-- substrOf pat text models text.includes(pat) in JavaScript. -/
def substrOf (pat text : String) : Bool := containsSub pat.data text.data

/-! ## Data model (src/backend/src/types/index.ts) -/

/-- The closed Category enumeration.  The string values are the ones of the
TypeScript enum EmailCategory. -/
inductive EmailCategory where
  | INTERESTED
  | MEETING_BOOKED
  | NOT_INTERESTED
  | SPAM
  | OUT_OF_OFFICE
  | UNCATEGORIZED
deriving DecidableEq

/-- The string value carried by each enum member in the source. -/
def EmailCategory.toValue : EmailCategory → String
  | .INTERESTED => "Interested"
  | .MEETING_BOOKED => "Meeting Booked"
  | .NOT_INTERESTED => "Not Interested"
  | .SPAM => "Spam"
  | .OUT_OF_OFFICE => "Out of Office"
  | .UNCATEGORIZED => "Uncategorized"

/-- The canonical Message record (interface Email).  The optional html and
category fields of the interface are not part of the record here: category
assignment is modelled explicitly by the pipeline state below, and html is
never read by any of the verified components.  The date is an abstract
timestamp. -/
structure Email where
  id : String
  accountId : String
  folder : String
  «from» : String
  «to» : List String
  subject : String
  body : String
  date : Nat
  uid : Nat

/-! ## CategorizationService (categorization.service.ts) -/

/-- The lower-cased concatenation of subject and body used by categorizeEmail:
(subject + " " + body).toLowerCase(). -/
def emailText (e : Email) : String := lowerStr (e.subject ++ " " ++ e.body)

/-- patterns.some(pattern =&gt; text.includes(pattern)). -/
def anyPattern (patterns : List String) (text : String) : Bool :=
  patterns.any fun p => substrOf p text

/-- Phrase list of isOutOfOffice. -/
def oooPatterns : List String :=
  ["out of office", "out of the office", "ooo", "automatic reply", "auto reply",
   "away from office", "on vacation", "on leave", "currently unavailable",
   "away from my desk", "not in the office", "limited access to email"]

/-- Phrase list of isSpam (the spamPatterns array). -/
def spamPatterns : List String :=
  ["congratulations you won", "claim your prize", "click here now",
   "limited time offer", "act now", "free money", "nigerian prince",
   "verify your account", "suspended account", "unusual activity",
   "confirm your password", "you have been selected", "winner", "lottery",
   "casino", "viagra", "pharmacy", "weight loss", "make money fast",
   "work from home", "no credit check", "refinance"]

/-- Phrase list of isMeetingBooked. -/
def meetingBookedPatterns : List String :=
  ["meeting confirmed", "meeting scheduled", "meeting booked",
   "calendar invitation", "event invitation", "has invited you",
   "meeting invite", "scheduled a meeting", "accepted your meeting",
   "meeting accepted", "zoom meeting", "google meet", "teams meeting",
   "calendar event", "appointment confirmed", "scheduled for", "meeting on",
   "see you at"]

/-- Phrase list of isInterested. -/
def interestedPatterns : List String :=
  ["interested", "would like to know more", "tell me more",
   "sounds interesting", "sounds good", "looks promising", "let\x27s discuss",
   "let\x27s talk", "let\x27s schedule", "can we talk", "would like to discuss",
   "want to learn more", "please share more", "send me more information",
   "more details", "please call", "looking forward", "excited to",
   "great opportunity", "resume shortlisted", "profile shortlisted",
   "congratulations", "move forward", "next steps", "interview",
   "technical round", "when are you available", "available for a call",
   "schedule a call", "let\x27s connect"]

/-- Phrase list of isNotInterested. -/
def notInterestedPatterns : List String :=
  ["not interested", "no longer interested", "not a good fit",
   "not the right fit", "pass on this", "decline", "not at this time",
   "maybe later", "not right now", "thank you for your interest",
   "we have decided", "went with another", "selected another candidate",
   "position has been filled", "no thank", "unsubscribe", "remove me",
   "stop sending", "not hiring", "budget constraints", "unfortunately",
   "regret to inform", "unable to proceed"]

def isOutOfOffice (text : String) : Bool := anyPattern oooPatterns text

/-- spamPatterns.some(pattern =&gt; text.includes(pattern)). -/
def spamKeywordHit (text : String) : Bool := anyPattern spamPatterns text

/-- (email.subject.match(/[A-Z]/g) || []).length — Char.isUpper tests exactly
the ASCII range A..Z of the regex. -/
def capsCount (s : String) : Nat := (s.data.filter Char.isUpper).length

/-- capsPercentage > 0.5 && email.subject.length > 10, with the float ratio
comparison capsCount/length > 0.5 embedded as the exact integer comparison
length < 2*capsCount (equivalent for every JS value arising here, the empty
subject producing NaN > 0.5 = false included). -/
def excessiveCaps (subject : String) : Bool :=
  decide (subject.length < 2 * capsCount subject) && decide (10 < subject.length)

/-- email.from.includes("noreply") || email.from.includes("no-reply") ||
!email.from.includes("@").  Note the raw from field is used, not lower-cased. -/
def suspiciousFrom (f : String) : Bool :=
  substrOf "noreply" f || substrOf "no-reply" f || !(substrOf "@" f)

/-- CategorizationService.isSpam. -/
def isSpam (text : String) (e : Email) : Bool :=
  spamKeywordHit text || (excessiveCaps e.subject && suspiciousFrom e.«from»)

def isMeetingBooked (text : String) : Bool := anyPattern meetingBookedPatterns text

def isInterested (text : String) : Bool := anyPattern interestedPatterns text

def isNotInterested (text : String) : Bool := anyPattern notInterestedPatterns text

/-- CategorizationService.categorizeEmail: ordered rule cascade, first match
wins, Uncategorized when no rule fires. -/
def categorizeEmail (e : Email) : EmailCategory :=
  let text := emailText e
  if isOutOfOffice text then EmailCategory.OUT_OF_OFFICE
  else if isSpam text e then EmailCategory.SPAM
  else if isMeetingBooked text then EmailCategory.MEETING_BOOKED
  else if isInterested text then EmailCategory.INTERESTED
  else if isNotInterested text then EmailCategory.NOT_INTERESTED
  else EmailCategory.UNCATEGORIZED

/-! ## Spec-side views of the categorizer, for claim C1 -/

/-- First-match evaluation over an ordered table of fired-flag/category pairs;
the spec formulation of ordered rule evaluation. -/
def firstMatch : List (Bool × EmailCategory) → EmailCategory
  | [] => EmailCategory.UNCATEGORIZED
  | (b, c) :: rest => if b then c else firstMatch rest

/-- The rule table of categorizeEmail in its fixed order, with each rule
test exactly as the code evaluates it. -/
def ruleTable (e : Email) : List (Bool × EmailCategory) :=
  let text := emailText e
  [(isOutOfOffice text, EmailCategory.OUT_OF_OFFICE),
   (isSpam text e, EmailCategory.SPAM),
   (isMeetingBooked text, EmailCategory.MEETING_BOOKED),
   (isInterested text, EmailCategory.INTERESTED),
   (isNotInterested text, EmailCategory.NOT_INTERESTED)]

/-- Claim-side classifier in which every rule, Spam included, is a pure
substring test over the lower-cased subject+body text, as claim C1 words it
("the first rule whose substring test matches"). -/
def categorizeBySubstringsOnly (e : Email) : EmailCategory :=
  let text := emailText e
  firstMatch
    [(anyPattern oooPatterns text, EmailCategory.OUT_OF_OFFICE),
     (anyPattern spamPatterns text, EmailCategory.SPAM),
     (anyPattern meetingBookedPatterns text, EmailCategory.MEETING_BOOKED),
     (anyPattern interestedPatterns text, EmailCategory.INTERESTED),
     (anyPattern notInterestedPatterns text, EmailCategory.NOT_INTERESTED)]

/-! ## Concrete messages used by the claims -/

/-- The Spam-heuristic message of claim C5 (and the C1 counterexample), with
every field not pinned by the claim left free. -/
def winningOfferEmail (id acc folder : String) (rcpts : List String)
    (body : String) (d uid : Nat) : Email :=
  ⟨id, acc, folder, "noreply@bulk.example", rcpts, "WINNING OFFER!!", body, d, uid⟩

/-- The example message of claim C2, with every field not pinned by the claim
left free. -/
def interviewEmail (id acc folder f : String) (rcpts : List String)
    (d uid : Nat) : Email :=
  ⟨id, acc, folder, f, rcpts, "Interview scheduled - Backend Engineer",
   "Let\x27s discuss next steps, are you available for a call?", d, uid⟩

example : categorizeEmail (interviewEmail "i" "a" "INBOX" "hr@x.com" [] 0 0)
    = EmailCategory.INTERESTED := by decide

example : categorizeEmail (winningOfferEmail "i" "a" "INBOX" [] "hello" 0 0)
    = EmailCategory.SPAM := by decide

/-! ## RAGService (rag.service.ts) -/

/-- Whitespace class of the /\s+/ separator on the ASCII texts handled here. -/
def isWsChar (c : Char) : Bool := c == ' ' || c == '\t' || c == '\n' || c == '\r'

/-- Worker for text.split(/\s+/): fields are the maximal runs of
non-whitespace characters; a leading or trailing separator contributes an
empty field, and the empty string yields the single field "".  acc holds the
current field reversed, inSep records whether the previous character belonged
to a separator run. -/
def splitWsGo : List Char → List Char → Bool → List (List Char)
  | [], acc, _ => [acc.reverse]
  | c :: rest, acc, inSep =>
    if isWsChar c then
      if inSep then splitWsGo rest [] true
      else acc.reverse :: splitWsGo rest [] true
    else splitWsGo rest (c :: acc) false

/-- text.toLowerCase().split(/\s+/). -/
def splitWords (s : String) : List (List Char) :=
  splitWsGo (s.data.map Char.toLower) [] false

/-- RAGService.calculateSimilarity: count of words of text1 (with
multiplicity) occurring among the words of text2, divided by the larger word
count. -/
def calculateSimilarity (text1 text2 : String) : ℚ :=
  let words1 := splitWords text1
  let words2 := splitWords text2
  let common := words1.filter fun w => words2.contains w
  (common.length : ℚ) / ((max words1.length words2.length : ℕ) : ℚ)

/-- Deduplication keeping first occurrences, used to read a word list as the
set of its tokens on the claim side. -/
def dedupTokens (l : List (List Char)) : List (List Char) :=
  l.foldl (fun acc w => if acc.contains w then acc else acc ++ [w]) []

/-- Claim-side similarity of C3, following the spec formula literally:
tokens are the set of lower-cased whitespace-delimited words, the numerator
is the cardinality of the token-set intersection, the denominator the larger
token-set cardinality; duplicates are irrelevant by construction. -/
def specSimilarity (a b : String) : ℚ :=
  let ta := dedupTokens (splitWords a)
  let tb := dedupTokens (splitWords b)
  ((ta.filter fun w => tb.contains w).length : ℚ) / ((max ta.length tb.length : ℕ) : ℚ)

/-- The score formula of calculateSimilarity on already-split word lists. -/
def simOnWords (w1 w2 : List (List Char)) : ℚ :=
  ((w1.filter fun w => w2.contains w).length : ℚ) / ((max w1.length w2.length : ℕ) : ℚ)

/-- A stored Context Snippet (interface ContextDocument; the optional
embedding field is never used). -/
structure ContextDoc where
  id : String
  text : String
deriving DecidableEq

/-- The stable descending sort scored.sort((a, b) =&gt; b.score - a.score):
insertion sort placing each element before the first strictly-smaller score,
which keeps elements of equal score in input order exactly as the
(specification-mandated stable) JavaScript Array.prototype.sort does. -/
def sortByDesc {α : Type} (f : α → ℚ) (l : List α) : List α :=
  List.insertionSort (fun a b => f b ≤ f a) l

/-- contextDocs.map(doc =&gt; ({doc, score})). -/
def scoredDocs (emailText : String) (docs : List ContextDoc) : List (ContextDoc × ℚ) :=
  docs.map fun d => (d, calculateSimilarity emailText d.text)

/-- RAGService.retrieveRelevantContext: score, sort descending, take the top
3, return their texts. -/
def retrieveRelevantContext (emailText : String) (docs : List ContextDoc) : List String :=
  ((sortByDesc Prod.snd (scoredDocs emailText docs)).take 3).map fun p => p.1.text

/-- Template returned for interview/scheduling texts. -/
def replyTemplateInterview : String :=
  "Thank you for reaching out! I\x27m very interested in discussing this opportunity further. I\x27m available for an interview at your convenience. Please feel free to book a time slot that works best for you: https://cal.com/example\n\nLooking forward to speaking with you!\n\nBest regards"

/-- Template returned for shortlisted/selected texts. -/
def replyTemplateShortlisted : String :=
  "Thank you for considering my profile! I\x27m excited about this opportunity and would be happy to proceed with the next steps. \n\nI\x27m available for an interview or discussion at your convenience. You can book a time slot here: https://cal.com/example\n\nLooking forward to connecting!\n\nBest regards"

/-- Template returned for general-interest texts. -/
def replyTemplateInterested : String :=
  "Thank you for your interest! I would be delighted to discuss this opportunity in more detail. \n\nI\x27m available for a call or meeting. Please feel free to schedule a time that works for you: https://cal.com/example\n\nBest regards"

/-- Template returned for technical-discussion texts. -/
def replyTemplateTechnical : String :=
  "Thank you for your email! I\x27d be happy to discuss my technical background and experience in detail. \n\nI\x27m available for a technical discussion at your convenience. You can schedule a meeting here: https://cal.com/example\n\nLooking forward to our conversation!\n\nBest regards"

/-- Default template. -/
def replyTemplateDefault : String :=
  "Thank you for reaching out! I appreciate your interest and would be happy to discuss this further.\n\nI\x27m available for a call or meeting. Please schedule a time that works for you: https://cal.com/example\n\nBest regards"

/-- RAGService.generateWithRules: keyed template cascade over the lower-cased
subject+body text. -/
def generateWithRules (e : Email) : String :=
  let t := emailText e
  if substrOf "interview" t || substrOf "schedule" t || substrOf "available" t
      || substrOf "when are you free" t then replyTemplateInterview
  else if substrOf "shortlisted" t || substrOf "selected" t
      || substrOf "congratulations" t then replyTemplateShortlisted
  else if substrOf "interested" t || substrOf "opportunity" t
      || substrOf "position" t then replyTemplateInterested
  else if substrOf "technical" t || substrOf "skills" t
      || substrOf "experience" t then replyTemplateTechnical
  else replyTemplateDefault

/-- Outcome of one structured-generation (OpenAI) call: failed covers a
thrown error, content s a response whose message content is s (the null
content of the API is indistinguishable from "" for the fallback test). -/
inductive GenOutcome where
  | failed
  | content (s : String)
deriving DecidableEq

/-- RAGService.generateWithOpenAI: a throw is caught and degrades to the
rule-based path, as does empty returned content
(completion.choices[0].message.content || generateWithRules(...)). -/
def generateWithOpenAI (outcome : GenOutcome) (e : Email) : String :=
  match outcome with
  | .failed => generateWithRules e
  | .content s => if s = "" then generateWithRules e else s

/-- RAGService.generateReply: cfg is none when no API key is configured
(this.openai null), some the call outcome otherwise. -/
def generateReply (cfg : Option GenOutcome) (e : Email) : String :=
  match cfg with
  | none => generateWithRules e
  | some outcome => generateWithOpenAI outcome e

/-- Claim-side template selection of C7, with exactly the substring keys the
claim enumerates (the first group lacking the "when are you free" key of the
code). -/
def claimTemplateSelect (e : Email) : String :=
  let t := emailText e
  if substrOf "interview" t || substrOf "schedule" t
      || substrOf "available" t then replyTemplateInterview
  else if substrOf "shortlisted" t || substrOf "selected" t
      || substrOf "congratulations" t then replyTemplateShortlisted
  else if substrOf "interested" t || substrOf "opportunity" t
      || substrOf "position" t then replyTemplateInterested
  else if substrOf "technical" t || substrOf "skills" t
      || substrOf "experience" t then replyTemplateTechnical
  else replyTemplateDefault

/-- Claim-side template selection of C7 as amended: the first key group
additionally contains "when are you free". -/
def claimTemplateSelectAmended (e : Email) : String :=
  let t := emailText e
  if substrOf "interview" t || substrOf "schedule" t || substrOf "available" t
      || substrOf "when are you free" t then replyTemplateInterview
  else if substrOf "shortlisted" t || substrOf "selected" t
      || substrOf "congratulations" t then replyTemplateShortlisted
  else if substrOf "interested" t || substrOf "opportunity" t
      || substrOf "position" t then replyTemplateInterested
  else if substrOf "technical" t || substrOf "skills" t
      || substrOf "experience" t then replyTemplateTechnical
  else replyTemplateDefault

/-! ## IMAPService lifecycle (imap.service.ts) -/

/-- Observable connector state: connected mirrors this.connected, endArmed
records that the once-registered end handler has not yet been consumed,
reconnectPending that a setTimeout(() =&gt; this.connect(), 5000) is
outstanding, connects counts the this.imap.connect() invocations. -/
structure ConnState where
  connected : Bool
  endArmed : Bool
  reconnectPending : Bool
  connects : Nat
deriving DecidableEq

/-- State of a freshly constructed IMAPService. -/
def initConnState : ConnState :=
  { connected := false, endArmed := true, reconnectPending := false, connects := 0 }

/-- Events of the connector lifecycle.  disconnectCall is the public
disconnect() method; its imap.end() tears the session down, and the
resulting protocol-level end event is delivered afterwards as a separate
endEvt.  reconnectTimer is the 5-second timer set by the end handler
firing. -/
inductive ConnEvent where
  | connectCall
  | ready
  | endEvt
  | disconnectCall
  | reconnectTimer

/-- One step of the connector, following the handlers installed by
setupEventHandlers and the connect/disconnect methods. -/
def connStep (s : ConnState) : ConnEvent → ConnState
  | .connectCall => if s.connected then s else { s with connects := s.connects + 1 }
  | .ready => { s with connected := true }
  | .endEvt =>
      if s.endArmed then
        { s with connected := false, endArmed := false, reconnectPending := true }
      else s
  | .disconnectCall => s
  | .reconnectTimer =>
      if s.reconnectPending then
        let s1 := { s with reconnectPending := false }
        if s1.connected then s1 else { s1 with connects := s1.connects + 1 }
      else s

/-- Run the connector from construction through a sequence of events. -/
def runConn (evts : List ConnEvent) : ConnState :=
  evts.foldl connStep initConnState

/-! ## Pipeline Coordinator (server.ts handleNewEmail with
NotificationService.notifyInterestedEmail) -/

/-- Collaborator invocations observable from handleNewEmail. -/
inductive Effect where
  | persist (id : String) (cat : EmailCategory)
  | notify (id : String)
deriving DecidableEq

/-- The ordered collaborator invocations of one handleNewEmail run.
persistOk tells whether the indexEmail write succeeds; a failed write throws,
is caught, and nothing further is invoked.  notifyInterestedEmail is invoked
after a successful write and calls the notification sinks only for the
Interested category. -/
def handleTrace (persistOk : Bool) (e : Email) : List Effect :=
  let cat := categorizeEmail e
  if persistOk then
    Effect.persist e.id cat ::
      (if cat = EmailCategory.INTERESTED then [Effect.notify e.id] else [])
  else []

/-- Persistence store (id/category pairs written) and delivered
notifications. -/
structure PipelineState where
  store : List (String × EmailCategory)
  notified : List String
deriving DecidableEq

/-- NotificationService.notifyInterestedEmail: only the Interested category
notifies; delivery failures (notifyOk = false) are swallowed inside the
service and leave the state unchanged. -/
def notifyInterestedEmail (notifyOk : Bool) (e : Email) (cat : EmailCategory)
    (s : PipelineState) : PipelineState :=
  if cat = EmailCategory.INTERESTED then
    if notifyOk then { s with notified := e.id :: s.notified } else s
  else s

/-- EmailSyncServer.handleNewEmail: categorize, persist keyed by id, then
notify; a persistence failure is caught and the run ends without
notification. -/
def handleNewEmail (persistOk notifyOk : Bool) (e : Email)
    (s : PipelineState) : PipelineState :=
  let cat := categorizeEmail e
  if persistOk then
    notifyInterestedEmail notifyOk e cat { s with store := (e.id, cat) :: s.store }
  else s

/-! ## EmailController.updateCategory -/

/-- Object.values(EmailCategory) in declaration order. -/
def emailCategoryValues : List String :=
  [EmailCategory.INTERESTED.toValue, EmailCategory.MEETING_BOOKED.toValue,
   EmailCategory.NOT_INTERESTED.toValue, EmailCategory.SPAM.toValue,
   EmailCategory.OUT_OF_OFFICE.toValue, EmailCategory.UNCATEGORIZED.toValue]

/-- HTTP outcome of the updateCategory handler. -/
inductive UpdateOutcome where
  | badRequest
  | updated
deriving DecidableEq

/-- ElasticsearchService.updateEmailCategory: upsert of the category of the
document with the given id. -/
def esUpdateCategory (id cat : String) (store : List (String × String)) :
    List (String × String) :=
  store.map fun p => if p.1 = id then (p.1, cat) else p

/-- EmailController.updateCategory: reject with 400 when the category is not
one of the enum values, otherwise call the persistence update.  The third
component records whether the persistence collaborator was invoked. -/
def updateCategoryHandler (id cat : String) (store : List (String × String)) :
    UpdateOutcome × List (String × String) × Bool :=
  if cat ∈ emailCategoryValues then
    (UpdateOutcome.updated, esUpdateCategory id cat store, true)
  else (UpdateOutcome.badRequest, store, false)

example : calculateSimilarity "hello hello" "hello world" = ((2:ℕ):ℚ) / ((2:ℕ):ℚ) := rfl
example : specSimilarity "hello hello" "hello world" = ((1:ℕ):ℚ) / ((2:ℕ):ℚ) := rfl
example : generateWithRules ⟨"i", "a", "INBOX", "x@y", [], "", "when are you free", 0, 0⟩
    = replyTemplateInterview := by decide

/-! ## Helper lemmas -/

theorem capsCount_le (s : String) : capsCount s ≤ s.length :=
  List.length_filter_le _ _

/-- The integer cross-multiplication test coincides with the rational ratio
test of the specification (where the 0/0 of an empty subject is the rational
0, false under &gt; 1/2 exactly as the JS NaN comparison is). -/
theorem capsRatio_iff (caps len : ℕ) (hle : caps ≤ len) :
    len < 2 * caps ↔ (1 : ℚ) / 2 < (caps : ℚ) / (len : ℚ) := by
  rcases Nat.eq_zero_or_pos len with h0 | hpos
  · subst h0
    have : caps = 0 := Nat.le_zero.mp hle
    subst this
    norm_num
  · have hl : (0 : ℚ) < (len : ℚ) := by exact_mod_cast hpos
    rw [div_lt_div_iff₀ (by norm_num) hl]
    constructor
    · intro h
      have h' : (len : ℚ) < 2 * (caps : ℚ) := by exact_mod_cast h
      linarith
    · intro h
      have h' : (len : ℚ) < 2 * (caps : ℚ) := by linarith
      exact_mod_cast h'

theorem excessiveCaps_iff (s : String) :
    excessiveCaps s = true ↔
      ((1 : ℚ) / 2 < (capsCount s : ℚ) / (s.length : ℚ) ∧ 10 < s.length) := by
  simp only [excessiveCaps, Bool.and_eq_true, decide_eq_true_eq]
  rw [capsRatio_iff (capsCount s) s.length (capsCount_le s)]

theorem suspiciousFrom_iff (f : String) :
    suspiciousFrom f = true ↔
      (substrOf "noreply" f = true ∨ substrOf "no-reply" f = true
       ∨ substrOf "@" f = false) := by
  simp [suspiciousFrom, Bool.or_eq_true, Bool.not_eq_true', or_assoc]

theorem anyPattern_iff (ps : List String) (t : String) :
    anyPattern ps t = true ↔ ∃ p ∈ ps, substrOf p t = true := by
  simp [anyPattern, List.any_eq_true]

theorem anyPattern_eq_false (ps : List String) (t : String)
    (h : ∀ p ∈ ps, substrOf p t = false) : anyPattern ps t = false := by
  cases hv : anyPattern ps t
  · rfl
  · rcases (anyPattern_iff ps t).mp hv with ⟨p, hp, hs⟩
    rw [h p hp] at hs
    exact absurd hs (by simp)

/-! ### Stable-sort lemmas for sortByDesc -/

theorem sortByDesc_sorted {α : Type} (f : α → ℚ) (l : List α) :
    (sortByDesc f l).Pairwise (fun a b => f b ≤ f a) :=
  @List.sorted_insertionSort α (fun a b => f b ≤ f a) _
    ⟨fun a b => le_total (f b) (f a)⟩ ⟨fun _ _ _ hab hbc => le_trans hbc hab⟩ l

theorem sortByDesc_perm {α : Type} (f : α → ℚ) (l : List α) :
    (sortByDesc f l).Perm l :=
  List.perm_insertionSort _ l

theorem orderedInsert_map_snd {α : Type} (f : α → ℚ) (a : ℕ × α) :
    ∀ l : List (ℕ × α),
      (List.orderedInsert (fun u v => f v.2 ≤ f u.2) a l).map Prod.snd =
        List.orderedInsert (fun u v => f v ≤ f u) a.2 (l.map Prod.snd) := by
  intro l
  induction l with
  | nil => simp [List.orderedInsert]
  | cons b t ih =>
    by_cases h : f b.2 ≤ f a.2
    · simp [List.orderedInsert, h]
    · simp [List.orderedInsert, h, ih]

/-- Sorting an index-annotated list and dropping the indices gives exactly the
sorted plain list: the annotation is observationally irrelevant. -/
theorem sortByDesc_map_snd {α : Type} (f : α → ℚ) :
    ∀ l : List (ℕ × α),
      (sortByDesc (fun p => f p.2) l).map Prod.snd = sortByDesc f (l.map Prod.snd) := by
  intro l
  induction l with
  | nil => rfl
  | cons a t ih =>
    simp only [sortByDesc, List.insertionSort, List.map] at *
    rw [orderedInsert_map_snd f a, ih]

/-- Strict order of a stable descending sort on index-annotated elements:
either strictly larger score, or equal scores in original index order. -/
def lexAfter {α : Type} (f : α → ℚ) (a b : ℕ × α) : Prop :=
  f b.2 < f a.2 ∨ (f a.2 = f b.2 ∧ a.1 < b.1)

theorem orderedInsert_lex {α : Type} (f : α → ℚ) (a : ℕ × α) :
    ∀ l : List (ℕ × α), l.Pairwise (lexAfter f) → (∀ x ∈ l, a.1 < x.1) →
      (List.orderedInsert (fun u v => f v.2 ≤ f u.2) a l).Pairwise (lexAfter f) := by
  intro l
  induction l with
  | nil => intro _ _; simp [List.orderedInsert, lexAfter]
  | cons b t ih =>
    intro hp hidx
    rcases List.pairwise_cons.mp hp with ⟨hbt, hpt⟩
    by_cases h : f b.2 ≤ f a.2
    · simp only [List.orderedInsert, if_pos h]
      refine List.Pairwise.cons ?_ hp
      intro x hmem
      rcases List.mem_cons.mp hmem with heqb | hmt
      · subst heqb
        rcases lt_or_eq_of_le h with hlt | heq
        · exact Or.inl hlt
        · exact Or.inr ⟨heq.symm, hidx x (List.mem_cons_self x t)⟩
      · have hbx := hbt x hmt
        have hxa : f x.2 ≤ f a.2 := by
          rcases hbx with h1 | h1
          · exact le_trans (le_of_lt h1) h
          · exact le_trans (le_of_eq h1.1.symm) h
        rcases lt_or_eq_of_le hxa with hlt | heq
        · exact Or.inl hlt
        · exact Or.inr ⟨heq.symm, hidx x (List.mem_cons_of_mem b hmt)⟩
    · simp only [List.orderedInsert, if_neg h]
      refine List.Pairwise.cons ?_ (ih hpt (fun x hx => hidx x (List.mem_cons_of_mem b hx)))
      intro x hx
      rcases (List.mem_orderedInsert _).mp hx with hxa | hxt
      · subst hxa
        exact Or.inl (lt_of_not_le h)
      · exact hbt x hxt

theorem sortByDesc_lex {α : Type} (f : α → ℚ) :
    ∀ l : List (ℕ × α), l.Pairwise (fun a b => a.1 < b.1) →
      (sortByDesc (fun p => f p.2) l).Pairwise (lexAfter f) := by
  intro l
  induction l with
  | nil => intro _; simp [sortByDesc, List.insertionSort]
  | cons a t ih =>
    intro hp
    rcases List.pairwise_cons.mp hp with ⟨hat, hpt⟩
    simp only [sortByDesc, List.insertionSort]
    refine orderedInsert_lex f a _ (ih hpt) ?_
    intro x hx
    have hmem : x ∈ t := (List.perm_insertionSort _ t).mem_iff.mp hx
    exact hat x hmem

theorem enumFrom_pairwise {α : Type} : ∀ (n : ℕ) (l : List α),
    (List.enumFrom n l).Pairwise (fun a b => a.1 < b.1) := by
  intro n l
  induction l generalizing n with
  | nil => simp
  | cons a t ih =>
    simp only [List.enumFrom]
    refine List.Pairwise.cons ?_ (ih (n + 1))
    rintro ⟨i, y⟩ hx
    have h := List.mem_enumFrom hx
    simp only at h
    omega

theorem enum_pairwise {α : Type} (l : List α) :
    l.enum.Pairwise (fun a b => a.1 < b.1) := by
  rw [List.enum]
  exact enumFrom_pairwise 0 l

/-! ## Claim C1 -/

/-- C1 (counterexample): the claim describes every rule, Spam included, as a
substring test and asserts Uncategorized when no substring test matches; but
the message with subject "WINNING OFFER!!", body "hello" and sender
noreply@bulk.example matches no substring test of any rule and is still
classified Spam by the compound heuristic, so categorizeEmail differs from
the claim-side substring-only classifier at this input. -/
theorem claim_C1_counterexample :
    categorizeEmail (winningOfferEmail "id1" "account1" "INBOX" [] "hello" 0 0)
        = EmailCategory.SPAM
    ∧ categorizeBySubstringsOnly (winningOfferEmail "id1" "account1" "INBOX" [] "hello" 0 0)
        = EmailCategory.UNCATEGORIZED
    ∧ EmailCategory.SPAM ≠ EmailCategory.UNCATEGORIZED := by
  decide

/-- C1 (amended): categorizeEmail evaluates the rules in the fixed order
OutOfOffice, Spam, MeetingBooked, Interested, NotInterested over the
lower-cased concatenation of subject and body, returns the category of the
first rule whose test matches — the OutOfOffice, MeetingBooked, Interested
and NotInterested tests being substring tests and the Spam test additionally
firing on the capitalization/sender heuristic — and returns Uncategorized
when none matches; in particular, for every message whose text contains both
an OutOfOffice phrase and an Interested phrase, the result is OutOfOffice. -/
theorem claim_C1_theorem :
    (∀ e : Email, categorizeEmail e = firstMatch (ruleTable e))
    ∧ (∀ e : Email,
        (∃ p ∈ oooPatterns, substrOf p (emailText e) = true) →
        (∃ q ∈ interestedPatterns, substrOf q (emailText e) = true) →
        categorizeEmail e = EmailCategory.OUT_OF_OFFICE) := by
  constructor
  · intro e
    rfl
  · intro e h1 _h2
    obtain ⟨p, hp, hs⟩ := h1
    have hooo : isOutOfOffice (emailText e) = true :=
      (anyPattern_iff oooPatterns (emailText e)).mpr ⟨p, hp, hs⟩
    simp [categorizeEmail, hooo]

/-- C1 (witness): a concrete message containing both an OutOfOffice phrase
and an Interested phrase resolves to OutOfOffice. -/
theorem claim_C1_witness :
    categorizeEmail
        ⟨"w1", "account1", "INBOX", "x@y.com", [], "Out of office", "I am interested", 0, 0⟩
      = EmailCategory.OUT_OF_OFFICE :=
  claim_C1_theorem.2 _ ⟨"out of office", by decide, by decide⟩
    ⟨"interested", by decide, by decide⟩

/-! ## Claim C2 -/

/-- C2 (counterexample): the message with subject "Interview scheduled -
Backend Engineer" and body "Let's discuss next steps, are you available for a
call?" is categorized Interested, not MeetingBooked: no MeetingBooked phrase
("meeting scheduled", "scheduled for", "scheduled a meeting", ...) occurs in
its text, while the Interested phrases "interview" and "let's discuss" do. -/
theorem claim_C2_counterexample :
    categorizeEmail (interviewEmail "id1" "account1" "INBOX" "hr@example.com" [] 0 0)
        = EmailCategory.INTERESTED
    ∧ EmailCategory.INTERESTED ≠ EmailCategory.MEETING_BOOKED := by
  decide

/-- C2 (amended): categorizeEmail applied to the message with subject
"Interview scheduled - Backend Engineer" and body "Let's discuss next steps,
are you available for a call?" (any id/account/folder/from/to/date/uid
fields) returns the category Interested. -/
theorem claim_C2_theorem :
    ∀ (id acc folder f : String) (rcpts : List String) (d uid : Nat),
      categorizeEmail (interviewEmail id acc folder f rcpts d uid)
        = EmailCategory.INTERESTED := by
  intro id acc folder f rcpts d uid
  have ht : emailText (interviewEmail id acc folder f rcpts d uid) =
      "interview scheduled - backend engineer let\x27s discuss next steps, are you available for a call?" := rfl
  have hooo : isOutOfOffice (emailText (interviewEmail id acc folder f rcpts d uid)) = false := by
    rw [ht]; decide
  have hkw : spamKeywordHit (emailText (interviewEmail id acc folder f rcpts d uid)) = false := by
    rw [ht]; decide
  have hmb : isMeetingBooked (emailText (interviewEmail id acc folder f rcpts d uid)) = false := by
    rw [ht]; decide
  have hint : isInterested (emailText (interviewEmail id acc folder f rcpts d uid)) = true := by
    rw [ht]; decide
  have hcaps : excessiveCaps (interviewEmail id acc folder f rcpts d uid).subject = false := by
    show excessiveCaps "Interview scheduled - Backend Engineer" = false
    decide
  have hspam : isSpam (emailText (interviewEmail id acc folder f rcpts d uid))
      (interviewEmail id acc folder f rcpts d uid) = false := by
    simp [isSpam, hkw, hcaps]
  simp [categorizeEmail, hooo, hspam, hmb, hint]

/-! ## Claim C5 -/

/-- C5: the Spam rule holds for a message iff either some fixed spam
substring occurs in the lower-cased subject+body text, or all three of
capitalization ratio above 1/2, subject length above 10, and a suspicious
from field (containing "noreply" or "no-reply" or lacking "@") hold; and in
particular every message with subject "WINNING OFFER!!" and from
noreply@bulk.example whose text is free of OutOfOffice phrases and of spam
keywords is classified Spam. -/
theorem claim_C5_theorem :
    (∀ e : Email, isSpam (emailText e) e = true ↔
      ((∃ p ∈ spamPatterns, substrOf p (emailText e) = true)
       ∨ ((1 : ℚ) / 2 < (capsCount e.subject : ℚ) / (e.subject.length : ℚ)
          ∧ 10 < e.subject.length
          ∧ (substrOf "noreply" e.«from» = true ∨ substrOf "no-reply" e.«from» = true
             ∨ substrOf "@" e.«from» = false))))
    ∧ (∀ (id acc folder : String) (rcpts : List String) (body : String) (d uid : Nat),
        (∀ p ∈ oooPatterns,
          substrOf p (emailText (winningOfferEmail id acc folder rcpts body d uid)) = false) →
        (∀ p ∈ spamPatterns,
          substrOf p (emailText (winningOfferEmail id acc folder rcpts body d uid)) = false) →
        categorizeEmail (winningOfferEmail id acc folder rcpts body d uid)
          = EmailCategory.SPAM) := by
  constructor
  · intro e
    simp only [isSpam, spamKeywordHit, Bool.or_eq_true, Bool.and_eq_true,
      anyPattern_iff, excessiveCaps_iff, suspiciousFrom_iff, and_assoc]
  · intro id acc folder rcpts body d uid h1 h2
    have hooo : isOutOfOffice (emailText (winningOfferEmail id acc folder rcpts body d uid))
        = false := anyPattern_eq_false _ _ h1
    have hkw : spamKeywordHit (emailText (winningOfferEmail id acc folder rcpts body d uid))
        = false := anyPattern_eq_false _ _ h2
    have hcaps : excessiveCaps (winningOfferEmail id acc folder rcpts body d uid).subject
        = true := by
      show excessiveCaps "WINNING OFFER!!" = true
      decide
    have hsus : suspiciousFrom (winningOfferEmail id acc folder rcpts body d uid).«from»
        = true := by
      show suspiciousFrom "noreply@bulk.example" = true
      decide
    have hspam : isSpam (emailText (winningOfferEmail id acc folder rcpts body d uid))
        (winningOfferEmail id acc folder rcpts body d uid) = true := by
      simp only [isSpam]
      rw [hkw, hcaps, hsus]
      rfl
    simp [categorizeEmail, hooo, hspam]

/-- C5 (witness): the heuristic branch fires concretely for body "hello". -/
theorem claim_C5_witness :
    ((∀ p ∈ oooPatterns,
        substrOf p (emailText (winningOfferEmail "w5" "account1" "INBOX" [] "hello" 0 0)) = false)
     ∧ (∀ p ∈ spamPatterns,
        substrOf p (emailText (winningOfferEmail "w5" "account1" "INBOX" [] "hello" 0 0)) = false)
     ∧ categorizeEmail (winningOfferEmail "w5" "account1" "INBOX" [] "hello" 0 0)
        = EmailCategory.SPAM) :=
  ⟨by decide, by decide,
   claim_C5_theorem.2 "w5" "account1" "INBOX" [] "hello" 0 0 (by decide) (by decide)⟩

/-! ## Claim C10 -/

/-- C10: for every message with empty subject the Spam compound heuristic
never fires — isSpam collapses to the keyword test, total and well-defined —
and such a message is classified Spam exactly when no OutOfOffice phrase
matches and some spam keyword substring is present. -/
theorem claim_C10_theorem :
    ∀ e : Email, e.subject = "" →
      isSpam (emailText e) e = spamKeywordHit (emailText e)
      ∧ (categorizeEmail e = EmailCategory.SPAM ↔
          (isOutOfOffice (emailText e) = false
           ∧ ∃ p ∈ spamPatterns, substrOf p (emailText e) = true)) := by
  intro e hs
  have hcaps : excessiveCaps e.subject = false := by rw [hs]; decide
  have h1 : isSpam (emailText e) e = spamKeywordHit (emailText e) := by
    simp [isSpam, hcaps]
  refine ⟨h1, ?_⟩
  rw [← anyPattern_iff]
  cases hooo : isOutOfOffice (emailText e) with
  | true => simp [categorizeEmail, hooo]
  | false =>
    cases hkw : spamKeywordHit (emailText e) with
    | true =>
      have hsp : isSpam (emailText e) e = true := h1.trans hkw
      have hkw' : anyPattern spamPatterns (emailText e) = true := hkw
      simp [categorizeEmail, hooo, hsp, hkw']
    | false =>
      have hsp : isSpam (emailText e) e = false := h1.trans hkw
      have hkw' : anyPattern spamPatterns (emailText e) = false := hkw
      simp only [categorizeEmail, hooo, hsp, hkw']
      split_ifs <;> simp [hkw']

/-- C10 (witness): the empty-subject message with body "free money now" from
x@y.com satisfies the equivalences concretely. -/
theorem claim_C10_witness :
    isSpam (emailText ⟨"w10", "account1", "INBOX", "x@y.com", [], "", "free money now", 0, 0⟩)
        ⟨"w10", "account1", "INBOX", "x@y.com", [], "", "free money now", 0, 0⟩
      = spamKeywordHit (emailText ⟨"w10", "account1", "INBOX", "x@y.com", [], "", "free money now", 0, 0⟩)
    ∧ (categorizeEmail ⟨"w10", "account1", "INBOX", "x@y.com", [], "", "free money now", 0, 0⟩
        = EmailCategory.SPAM ↔
        (isOutOfOffice (emailText ⟨"w10", "account1", "INBOX", "x@y.com", [], "", "free money now", 0, 0⟩) = false
         ∧ ∃ p ∈ spamPatterns,
            substrOf p (emailText ⟨"w10", "account1", "INBOX", "x@y.com", [], "", "free money now", 0, 0⟩) = true)) :=
  claim_C10_theorem ⟨"w10", "account1", "INBOX", "x@y.com", [], "", "free money now", 0, 0⟩ rfl

/-! ## Claim C3 -/

/-- C3 (counterexample): the claimed set-intersection formula fails when a
word of the first text is duplicated: on texts "hello hello" and
"hello world" the code scores 2/2 = 1 (both occurrences of "hello" count)
while the claimed formula scores 1/2. -/
theorem claim_C3_counterexample :
    calculateSimilarity "hello hello" "hello world"
      ≠ specSimilarity "hello hello" "hello world" := by
  have h1 : calculateSimilarity "hello hello" "hello world"
      = ((2 : ℕ) : ℚ) / ((2 : ℕ) : ℚ) := rfl
  have h2 : specSimilarity "hello hello" "hello world"
      = ((1 : ℕ) : ℚ) / ((2 : ℕ) : ℚ) := rfl
  rw [h1, h2]
  norm_num

/-- C3 (amended): for every pair of texts, the similarity score equals the
number of positions of the lower-cased whitespace-delimited word list of the
first text whose word occurs in the word list of the second, divided by the
larger word-list length; word order does not affect the score (permuting
either word list leaves it unchanged), while duplicate words in the first
text count with multiplicity. -/
theorem claim_C3_theorem :
    (∀ a b : String,
      calculateSimilarity a b = simOnWords (splitWords a) (splitWords b))
    ∧ (∀ w1 w1' w2 w2' : List (List Char), w1.Perm w1' → w2.Perm w2' →
        simOnWords w1 w2 = simOnWords w1' w2') := by
  constructor
  · intro a b
    rfl
  · intro w1 w1' w2 w2' h1 h2
    have hc : ∀ w, w2.contains w = w2'.contains w := by
      intro w
      cases hx : w2'.contains w with
      | true =>
        have hm : w ∈ w2' := List.elem_iff.mp hx
        exact List.elem_iff.mpr (h2.mem_iff.mpr hm)
      | false =>
        cases hy : w2.contains w with
        | true =>
          have hm : w ∈ w2 := List.elem_iff.mp hy
          have hm' : w2'.contains w = true := List.elem_iff.mpr (h2.mem_iff.mp hm)
          exact hm'.symm.trans hx
        | false => rfl
    have hf : (w1.filter fun w => w2.contains w).length
        = (w1'.filter fun w => w2'.contains w).length := by
      rw [List.filter_congr (fun x _ => hc x)]
      exact (h1.filter _).length_eq
    simp only [simOnWords]
    rw [hf, h1.length_eq, h2.length_eq]

/-- C3 (witness): permutation invariance applied at concrete word lists. -/
theorem claim_C3_witness :
    simOnWords ["ab".data, "cd".data] ["cd".data]
      = simOnWords ["cd".data, "ab".data] ["cd".data] :=
  claim_C3_theorem.2 ["ab".data, "cd".data] ["cd".data, "ab".data]
    ["cd".data] ["cd".data] (by decide) (List.Perm.refl _)

/-! ## Claim C4 -/

/-- C4: the claim that after disconnect() no reconnection is ever scheduled
fails on the code: disconnect() calls imap.end(), the still-armed
once-registered end handler runs, and it unconditionally schedules
setTimeout(connect, 5000); since connected was reset, the timer reconnects.
The run below evaluates the connector on the graceful-shutdown lifecycle
connect, ready, disconnect, protocol end event: the post-disconnect state
has a pending reconnect timer, and letting the timer fire performs a second
connect. -/
theorem claim_C4_theorem :
    (runConn [ConnEvent.connectCall, ConnEvent.ready, ConnEvent.disconnectCall,
        ConnEvent.endEvt]).reconnectPending = true
    ∧ (runConn [ConnEvent.connectCall, ConnEvent.ready, ConnEvent.disconnectCall,
        ConnEvent.endEvt, ConnEvent.reconnectTimer]).connects = 2 := by
  decide

/-! ## Claim C6 -/

/-- C6: on every message whose persistence write succeeds, the write, keyed
by the message id and carrying its assigned category, is the first
collaborator invocation and is therefore performed before any notification;
the notification collaborator is invoked iff the category is Interested; a
notification delivery failure leaves the persisted store identical to a
successful delivery, and a persistence failure ends the run with the state
unchanged. -/
theorem claim_C6_theorem :
    ∀ (e : Email) (s : PipelineState) (notifyOk : Bool),
      (Effect.notify e.id ∈ handleTrace true e ↔
        categorizeEmail e = EmailCategory.INTERESTED)
      ∧ (handleTrace true e).head? = some (Effect.persist e.id (categorizeEmail e))
      ∧ (handleNewEmail true notifyOk e s).store = (e.id, categorizeEmail e) :: s.store
      ∧ (handleNewEmail true false e s).store = (handleNewEmail true true e s).store
      ∧ handleNewEmail false notifyOk e s = s := by
  intro e s notifyOk
  by_cases hc : categorizeEmail e = EmailCategory.INTERESTED
  · cases notifyOk <;>
      simp [handleTrace, handleNewEmail, notifyInterestedEmail, hc]
  · cases notifyOk <;>
      simp [handleTrace, handleNewEmail, notifyInterestedEmail, hc]

/-! ## Claim C7 -/

/-- The message exhibiting the missing "when are you free" key of claim C7. -/
def whenFreeEmail : Email :=
  ⟨"id1", "account1", "INBOX", "hr@example.com", [], "", "when are you free", 0, 0⟩

/-- C7 (counterexample): the claim enumerates the substring keys of the
rule-based fallback as interview/schedule/available for the first template,
but the code also selects that template on "when are you free"; on a message
whose text contains only that key the code returns the interview template
while the claimed selection returns the generic one. -/
theorem claim_C7_counterexample :
    generateWithRules whenFreeEmail = replyTemplateInterview
    ∧ claimTemplateSelect whenFreeEmail = replyTemplateDefault
    ∧ replyTemplateInterview ≠ replyTemplateDefault := by
  decide

/-- C7 (amended): generateReply always returns a non-empty string and never
propagates an exception: whenever the structured-generation collaborator is
absent, fails, or returns empty content, the result is the rule-based
selection, which always yields one of the five fixed non-empty templates,
keyed by substrings ("interview"/"schedule"/"available"/"when are you free",
"shortlisted"/"selected"/"congratulations",
"interested"/"opportunity"/"position", "technical"/"skills"/"experience",
else the generic template); non-empty generated content is returned as is. -/
theorem claim_C7_theorem :
    (∀ (cfg : Option GenOutcome) (e : Email), generateReply cfg e ≠ "")
    ∧ (∀ e : Email,
        generateReply none e = generateWithRules e
        ∧ generateReply (some GenOutcome.failed) e = generateWithRules e
        ∧ generateReply (some (GenOutcome.content "")) e = generateWithRules e)
    ∧ (∀ s : String, s ≠ "" → ∀ e : Email,
        generateReply (some (GenOutcome.content s)) e = s)
    ∧ (∀ e : Email,
        generateWithRules e ∈ [replyTemplateInterview, replyTemplateShortlisted,
          replyTemplateInterested, replyTemplateTechnical, replyTemplateDefault])
    ∧ (∀ e : Email, generateWithRules e = claimTemplateSelectAmended e) := by
  have hmem : ∀ e : Email,
      generateWithRules e ∈ [replyTemplateInterview, replyTemplateShortlisted,
        replyTemplateInterested, replyTemplateTechnical, replyTemplateDefault] := by
    intro e
    simp only [generateWithRules]
    split_ifs <;> simp
  have hne : ∀ e : Email, generateWithRules e ≠ "" := by
    intro e
    have hm := hmem e
    simp only [List.mem_cons, List.not_mem_nil, or_false] at hm
    rcases hm with h | h | h | h | h <;> rw [h] <;> decide
  refine ⟨?_, ?_, ?_, hmem, ?_⟩
  · intro cfg e
    cases cfg with
    | none => exact hne e
    | some o =>
      cases o with
      | failed => exact hne e
      | content s =>
        by_cases hs : s = ""
        · subst hs
          simpa [generateReply, generateWithOpenAI] using hne e
        · simp only [generateReply, generateWithOpenAI, if_neg hs]
          exact hs
  · intro e
    exact ⟨rfl, rfl, by simp [generateReply, generateWithOpenAI]⟩
  · intro s hs e
    simp [generateReply, generateWithOpenAI, hs]
  · intro e
    rfl

/-- C7 (witness): non-empty generated content is passed through unchanged. -/
theorem claim_C7_witness :
    generateReply (some (GenOutcome.content "Sounds good, see you then.")) whenFreeEmail
      = "Sounds good, see you then." :=
  claim_C7_theorem.2.2.1 "Sounds good, see you then." (by decide) whenFreeEmail

/-! ## Claim C8 -/

/-- C8: an updateCategory request whose category value is none of the six
enumerated Category values is answered with the invalid-category error, the
persistence collaborator update is not invoked, and the store is returned
unchanged. -/
theorem claim_C8_theorem :
    ∀ (id cat : String) (store : List (String × String)),
      (∀ c : EmailCategory, cat ≠ c.toValue) →
      updateCategoryHandler id cat store = (UpdateOutcome.badRequest, store, false) := by
  intro id cat store h
  have hmem : cat ∉ emailCategoryValues := by
    intro hm
    simp only [emailCategoryValues, EmailCategory.toValue, List.mem_cons,
      List.not_mem_nil, or_false] at hm
    rcases hm with h1 | h1 | h1 | h1 | h1 | h1
    · exact h EmailCategory.INTERESTED h1
    · exact h EmailCategory.MEETING_BOOKED h1
    · exact h EmailCategory.NOT_INTERESTED h1
    · exact h EmailCategory.SPAM h1
    · exact h EmailCategory.OUT_OF_OFFICE h1
    · exact h EmailCategory.UNCATEGORIZED h1
  simp [updateCategoryHandler, hmem]

/-- C8 (witness): the request with category "Junk" is rejected and the
stored message keeps its category. -/
theorem claim_C8_witness :
    updateCategoryHandler "m1" "Junk" [("m1", "Spam")]
      = (UpdateOutcome.badRequest, [("m1", "Spam")], false) :=
  claim_C8_theorem "m1" "Junk" [("m1", "Spam")] (by intro c; cases c <;> decide)

/-! ## Claim C9 -/

/-- C9: context retrieval is deterministic (it is the pure function below of
the message text and the snippet list), the three returned snippets are the
texts of the first three elements of the sorted scored list, scores along
that prefix are non-increasing, sorting permutes the scored list, and the
sort is stable: sorting the index-annotated scored list and dropping the
indices gives exactly the sorted list, and the annotated result is pairwise
ordered by strictly-greater score or, at equal scores, by original insertion
index. -/
theorem claim_C9_theorem :
    ∀ (text : String) (docs : List ContextDoc),
      retrieveRelevantContext text docs
          = ((sortByDesc Prod.snd (scoredDocs text docs)).take 3).map (fun p => p.1.text)
      ∧ ((sortByDesc Prod.snd (scoredDocs text docs)).take 3).Pairwise
          (fun a b => b.2 ≤ a.2)
      ∧ (sortByDesc Prod.snd (scoredDocs text docs)).Perm (scoredDocs text docs)
      ∧ (sortByDesc (fun p => p.2.2) (scoredDocs text docs).enum).map Prod.snd
          = sortByDesc Prod.snd (scoredDocs text docs)
      ∧ (sortByDesc (fun p => p.2.2) (scoredDocs text docs).enum).Pairwise
          (fun a b => b.2.2 < a.2.2 ∨ (a.2.2 = b.2.2 ∧ a.1 < b.1)) := by
  intro text docs
  refine ⟨rfl, ?_, sortByDesc_perm _ _, ?_, ?_⟩
  · exact List.Pairwise.sublist (List.take_sublist 3 _) (sortByDesc_sorted Prod.snd _)
  · have h := sortByDesc_map_snd (Prod.snd : ContextDoc × ℚ → ℚ) (scoredDocs text docs).enum
    rw [List.enum_map_snd] at h
    exact h
  · exact sortByDesc_lex Prod.snd _ (enum_pairwise _)
